import Mathlib

/-!
Shallow embedding of the bolt persistence store of csymapp/mqtt
(package `bolt`, file modelled from src/unnamed/part_001) together with the
parts of its environment that the store's contract depends on: the record
types of the `persistence` package and the keyed-container semantics of the
embedded storm/bbolt engine. The store code itself is translated from the
source; the engine and record types, which are not part of the shown source,
are modelled from the spec (sections 3, 4.1 and 6), as marked on each
definition.
-/

set_option autoImplicit false

namespace Bolt

/-- Modelled from the spec: the record-kind discriminator constants of the
`persistence` package (not in src). Only their pairwise distinctness matters;
the concrete strings are representative. -/
def KSubscription : String := "sub"

/-- Modelled from the spec: kind discriminator of the ServerInfo singleton. -/
def KServerInfo : String := "srv"

/-- Modelled from the spec: kind discriminator of retained messages. -/
def KRetained : String := "ret"

/-- Modelled from the spec: kind discriminator of inflight messages. -/
def KInflight : String := "ifm"

/-- Modelled from the spec: kind discriminator of client records. -/
def KClient : String := "cl"

/-- Modelled from the spec: a persisted message record (spec section 3).
`ID` is the primary key, `T` the kind discriminator (Inflight or Retained),
`Created` the unix-seconds creation timestamp, `Payload` the message body. -/
structure Message where
  ID : String
  T : String
  Created : Int
  Payload : String
deriving DecidableEq, Repr

/-- Modelled from the spec: the server-info singleton record. -/
structure ServerInfo where
  ID : String
  Info : String
deriving DecidableEq, Repr

/-- Modelled from the spec: the zero value of ServerInfo, as produced by a Go
`var v persistence.ServerInfo` declaration. -/
def ServerInfo.zero : ServerInfo := ⟨"", ""⟩

/-- Modelled from the spec: a client session record. -/
structure Client where
  ID : String
  T : String
  Payload : String
deriving DecidableEq, Repr

/-- Modelled from the spec: a subscription record. -/
structure Subscription where
  ID : String
  T : String
  Payload : String
deriving DecidableEq, Repr

/-- Modelled from the spec: errors reported by the embedded engine.
`notFound` is storm.ErrNotFound; `databaseClosed` is the engine's error for
operating on a closed handle; `ioFailure` stands for any other persist
failure. -/
inductive EngineErr where
  | notFound
  | databaseClosed
  | ioFailure
deriving DecidableEq, Repr

/-- Errors surfaced by the store: its own ErrDBNotOpen sentinel, or an engine
error propagated verbatim. -/
inductive Err where
  | dbNotOpen
  | engine (e : EngineErr)
deriving DecidableEq, Repr

/-- Modelled from the spec: the engine state, one container per record type
(spec section 6), each holding records keyed by their primary identifier.
Inflight and Retained messages share the single `messages` container. -/
structure DB where
  serverInfo : List ServerInfo
  clients : List Client
  subscriptions : List Subscription
  messages : List Message
deriving DecidableEq, Repr

/-- Modelled from the spec: the empty engine state of a freshly created file. -/
def DB.empty : DB := ⟨[], [], [], []⟩

/-- Modelled from the spec: upsert into a container keyed by `idOf` — the
record replaces any record already stored under its identifier, never
duplicating (spec section 3, upsert semantics). -/
def upsert {α : Type} (idOf : α → String) (l : List α) (v : α) : List α :=
  l.filter (fun r => idOf r ≠ idOf v) ++ [v]

/-- Modelled from the spec: erase from a container keyed by `idOf` the record
stored under `id`, if any; erasing an absent key is a no-op (the container is
keyed by primary identifier, spec section 6). -/
def eraseById {α : Type} (idOf : α → String) (l : List α) (id : String) : List α :=
  l.filter (fun r => idOf r ≠ id)

/-- Modelled from the spec: the engine's indexed Find on a container,
filtering on the kind-discriminator field selected by `tOf`; reports
storm.ErrNotFound when no record matches. -/
def findByT {α : Type} (tOf : α → String) (l : List α) (kind : String) :
    Except EngineErr (List α) :=
  let r := l.filter (fun m => tOf m = kind)
  if r.isEmpty then .error .notFound else .ok r

/-- Modelled from the spec: the engine's One lookup on the serverInfo
container by the ID field. -/
def oneById (l : List ServerInfo) (id : String) : Option ServerInfo :=
  l.find? (fun r => r.ID = id)

/-- Modelled from the spec: the open engine handle wrapped by the store; the
`closed` flag records whether the engine's Close has run (a closed handle
rejects every engine operation with `databaseClosed`, it does not become nil). -/
structure Handle where
  closed : Bool
  db : DB
deriving DecidableEq, Repr

/-- Options for configuring the boltdb instance; the spec's configuration
surface exposes the lock-wait timeout in milliseconds. -/
structure Options where
  timeout : Nat
deriving DecidableEq, Repr

/-- defaultPath is the default file to use to store the data. -/
def defaultPath : String := "mochi.db"

/-- defaultTimeout is the default timeout of the file lock, in milliseconds. -/
def defaultTimeout : Nat := 250

/-- Store is a backend for writing and reading to bolt persistent storage.
`dbh` embeds the Go field `db *storm.DB`: `none` is a nil pointer. -/
structure Store where
  path : String
  opts : Options
  dbh : Option Handle
  inflightTTL : Int
deriving DecidableEq, Repr

/-- New returns a configured instance of the boltdb store (src lines 37-52). -/
def New (path : String) (opts : Option Options) : Store :=
  let path := if path = "" ∨ path = "." then defaultPath else path
  let opts := match opts with
    | none => { timeout := defaultTimeout }
    | some o => o
  { path := path, opts := opts, dbh := none, inflightTTL := 0 }

/-- SetInflightTTL sets the number of seconds an inflight message should be
kept before being dropped (src lines 57-59). -/
def SetInflightTTL (s : Store) (seconds : Int) : Store :=
  { s with inflightTTL := seconds }

/-- Open opens the boltdb instance (src lines 62-70). Modelled from the spec
for the engine part: opening a fresh path succeeds and yields an empty store;
lock-timeout and I/O failures of storm.Open are outside the claims and not
modelled. -/
def OpenStore (s : Store) : Store :=
  { s with dbh := some ⟨false, DB.empty⟩ }

/-- Result of the Go Close method, which returns nothing: it either runs or
dereferences a nil db pointer, which panics the process. -/
inductive CloseResult where
  | ok (s : Store)
  | nilPanic
deriving DecidableEq, Repr

/-- Close closes the boltdb instance (src lines 73-75). The source calls
s.db.Close() without a nil check and does not reset s.db: on a never-opened
store this dereferences nil (panic); otherwise the engine handle is marked
closed but stays non-nil. -/
def Close (s : Store) : CloseResult :=
  match s.dbh with
  | none => .nilPanic
  | some h => .ok { s with dbh := some { h with closed := true } }

/-- WriteServerInfo writes the server info to the boltdb instance
(src lines 78-88). -/
def WriteServerInfo (s : Store) (v : ServerInfo) : Except Err Store :=
  match s.dbh with
  | none => .error .dbNotOpen
  | some h =>
    if h.closed then .error (.engine .databaseClosed)
    else .ok { s with dbh := some { h with db :=
      { h.db with serverInfo := upsert ServerInfo.ID h.db.serverInfo v } } }

/-- WriteSubscription writes a single subscription to the boltdb instance
(src lines 91-101). -/
def WriteSubscription (s : Store) (v : Subscription) : Except Err Store :=
  match s.dbh with
  | none => .error .dbNotOpen
  | some h =>
    if h.closed then .error (.engine .databaseClosed)
    else .ok { s with dbh := some { h with db :=
      { h.db with subscriptions := upsert Subscription.ID h.db.subscriptions v } } }

/-- WriteInflight writes a single inflight message to the boltdb instance
(src lines 104-114). -/
def WriteInflight (s : Store) (v : Message) : Except Err Store :=
  match s.dbh with
  | none => .error .dbNotOpen
  | some h =>
    if h.closed then .error (.engine .databaseClosed)
    else .ok { s with dbh := some { h with db :=
      { h.db with messages := upsert Message.ID h.db.messages v } } }

/-- WriteRetained writes a single retained message to the boltdb instance
(src lines 117-127); identical to WriteInflight, as both Save into the shared
messages container. -/
def WriteRetained (s : Store) (v : Message) : Except Err Store :=
  WriteInflight s v

/-- WriteClient writes a single client to the boltdb instance
(src lines 130-140). -/
def WriteClient (s : Store) (v : Client) : Except Err Store :=
  match s.dbh with
  | none => .error .dbNotOpen
  | some h =>
    if h.closed then .error (.engine .databaseClosed)
    else .ok { s with dbh := some { h with db :=
      { h.db with clients := upsert Client.ID h.db.clients v } } }

/-- DeleteSubscription deletes a subscription from the boltdb instance
(src lines 143-156); the engine call carries only the ID. -/
def DeleteSubscription (s : Store) (id : String) : Except Err Store :=
  match s.dbh with
  | none => .error .dbNotOpen
  | some h =>
    if h.closed then .error (.engine .databaseClosed)
    else .ok { s with dbh := some { h with db :=
      { h.db with subscriptions := eraseById Subscription.ID h.db.subscriptions id } } }

/-- DeleteClient deletes a client from the boltdb instance
(src lines 159-172); the engine call carries only the ID. -/
def DeleteClient (s : Store) (id : String) : Except Err Store :=
  match s.dbh with
  | none => .error .dbNotOpen
  | some h =>
    if h.closed then .error (.engine .databaseClosed)
    else .ok { s with dbh := some { h with db :=
      { h.db with clients := eraseById Client.ID h.db.clients id } } }

/-- DeleteInflight deletes an inflight message from the boltdb instance
(src lines 175-188). The engine call DeleteStruct(Message with ID only) keys
on the primary identifier of the shared messages container; the kind
discriminator is not part of the call. -/
def DeleteInflight (s : Store) (id : String) : Except Err Store :=
  match s.dbh with
  | none => .error .dbNotOpen
  | some h =>
    if h.closed then .error (.engine .databaseClosed)
    else .ok { s with dbh := some { h with db :=
      { h.db with messages := eraseById Message.ID h.db.messages id } } }

/-- DeleteRetained deletes a retained message from the boltdb instance
(src lines 191-204); the function body is identical to DeleteInflight in the
source, so the two are the same operation. -/
def DeleteRetained (s : Store) (id : String) : Except Err Store :=
  DeleteInflight s id

/-- ReadSubscriptions loads all the subscriptions (src lines 207-218): the
engine Find on the T index, with storm.ErrNotFound swallowed into an empty
result and every other error propagated. -/
def ReadSubscriptions (s : Store) : Except Err (List Subscription) :=
  match s.dbh with
  | none => .error .dbNotOpen
  | some h =>
    if h.closed then .error (.engine .databaseClosed)
    else
      match findByT Subscription.T h.db.subscriptions KSubscription with
      | .error .notFound => .ok []
      | .error e => .error (.engine e)
      | .ok v => .ok v

/-- ReadClients loads all the clients (src lines 221-232), same shape as
ReadSubscriptions with the Client kind. -/
def ReadClients (s : Store) : Except Err (List Client) :=
  match s.dbh with
  | none => .error .dbNotOpen
  | some h =>
    if h.closed then .error (.engine .databaseClosed)
    else
      match findByT Client.T h.db.clients KClient with
      | .error .notFound => .ok []
      | .error e => .error (.engine e)
      | .ok v => .ok v

/-- ReadInflight loads all the inflight messages (src lines 235-246): the
engine Find on the T index, with storm.ErrNotFound swallowed into an empty
result and every other error propagated. -/
def ReadInflight (s : Store) : Except Err (List Message) :=
  match s.dbh with
  | none => .error .dbNotOpen
  | some h =>
    if h.closed then .error (.engine .databaseClosed)
    else
      match findByT Message.T h.db.messages KInflight with
      | .error .notFound => .ok []
      | .error e => .error (.engine e)
      | .ok v => .ok v

/-- ReadRetained loads all the retained messages (src lines 249-260), same
shape as ReadInflight with the Retained kind. -/
def ReadRetained (s : Store) : Except Err (List Message) :=
  match s.dbh with
  | none => .error .dbNotOpen
  | some h =>
    if h.closed then .error (.engine .databaseClosed)
    else
      match findByT Message.T h.db.messages KRetained with
      | .error .notFound => .ok []
      | .error e => .error (.engine e)
      | .ok v => .ok v

/-- ReadServerInfo loads the server info (src lines 263-274): the engine One
lookup by the fixed ID, with storm.ErrNotFound swallowed into the zero-value
record. -/
def ReadServerInfo (s : Store) : Except Err ServerInfo :=
  match s.dbh with
  | none => .error .dbNotOpen
  | some h =>
    if h.closed then .error (.engine .databaseClosed)
    else
      match oneById h.db.serverInfo KServerInfo with
      | none => .ok ServerInfo.zero
      | some v => .ok v

/-- isStale is the staleness test of the sweep loop (src line 289):
created before the expiry threshold, or created unknown (zero). -/
def isStale (expiry : Int) (m : Message) : Bool :=
  decide (m.Created < expiry) || decide (m.Created = 0)

/-- Modelled from the spec: erase the record keyed by `id` from the shared
messages container of the engine state. -/
def DB.deleteMessage (db : DB) (id : String) : DB :=
  { db with messages := eraseById Message.ID db.messages id }

/-- sweepGo is the deletion loop of ClearExpiredInflight (src lines 288-295),
parameterised by a fault oracle `fails` telling which engine deletions fail
(the pure engine model cannot fail on its own, but the source propagates any
deletion error and the spec requires fail-fast abort): the loop walks the
loaded inflight records, deletes each stale one, and returns the engine error
of the first failing deletion, leaving later records untouched. -/
def sweepGo (fails : String → Bool) (expiry : Int) :
    DB → List Message → DB × Option Err
  | db, [] => (db, none)
  | db, m :: rest =>
    if isStale expiry m then
      if fails m.ID then (db, some (.engine .ioFailure))
      else sweepGo fails expiry (db.deleteMessage m.ID) rest
    else sweepGo fails expiry db rest

/-- ClearExpiredInflightGen is ClearExpiredInflight (src lines 277-298) with
the deletion fault oracle exposed: load all Inflight-kind records (with
storm.ErrNotFound swallowed), then run the deletion loop; the store's db
reflects every deletion performed before a failure. -/
def ClearExpiredInflightGen (fails : String → Bool) (s : Store) (expiry : Int) :
    Store × Option Err :=
  match s.dbh with
  | none => (s, some .dbNotOpen)
  | some h =>
    if h.closed then (s, some (.engine .databaseClosed))
    else
      let v := h.db.messages.filter (fun m => m.T = KInflight)
      let r := sweepGo fails expiry h.db v
      ({ s with dbh := some { h with db := r.1 } }, r.2)

/-- ClearExpiredInflight deletes any inflight messages older than the provided
unix timestamp (src lines 277-298), with the fault-free engine. -/
def ClearExpiredInflight (s : Store) (expiry : Int) : Store × Option Err :=
  ClearExpiredInflightGen (fun _ => false) s expiry

/-- NodupIDs states that the shared messages container holds at most one
record per primary identifier — the invariant the keyed engine maintains. -/
def NodupIDs (l : List Message) : Prop :=
  l.Pairwise (fun a b => a.ID ≠ b.ID)

instance (l : List Message) : Decidable (NodupIDs l) := by
  unfold NodupIDs; infer_instance

theorem upsert_filter_id {α : Type} (idOf : α → String) (l : List α) (v : α) :
    (upsert idOf l v).filter (fun r => idOf r = idOf v) = [v] := by
  rw [upsert, List.filter_append, List.filter_filter]
  rw [List.filter_eq_nil_iff.mpr]
  · simp
  · intro a _
    simp only [Bool.and_eq_true, decide_eq_true_eq, not_and]
    intro he
    simp [he]

theorem WriteInflight_open (s : Store) (h : Handle) (v : Message)
    (hs : s.dbh = some h) (hc : h.closed = false) :
    WriteInflight s v = .ok { s with dbh := some { h with db :=
      { h.db with messages := upsert Message.ID h.db.messages v } } } := by
  simp only [WriteInflight, hs, hc, Bool.false_eq_true, if_false]

theorem WriteClient_open (s : Store) (h : Handle) (v : Client)
    (hs : s.dbh = some h) (hc : h.closed = false) :
    WriteClient s v = .ok { s with dbh := some { h with db :=
      { h.db with clients := upsert Client.ID h.db.clients v } } } := by
  simp only [WriteClient, hs, hc, Bool.false_eq_true, if_false]

theorem WriteSubscription_open (s : Store) (h : Handle) (v : Subscription)
    (hs : s.dbh = some h) (hc : h.closed = false) :
    WriteSubscription s v = .ok { s with dbh := some { h with db :=
      { h.db with subscriptions := upsert Subscription.ID h.db.subscriptions v } } } := by
  simp only [WriteSubscription, hs, hc, Bool.false_eq_true, if_false]

theorem WriteServerInfo_open (s : Store) (h : Handle) (v : ServerInfo)
    (hs : s.dbh = some h) (hc : h.closed = false) :
    WriteServerInfo s v = .ok { s with dbh := some { h with db :=
      { h.db with serverInfo := upsert ServerInfo.ID h.db.serverInfo v } } } := by
  simp only [WriteServerInfo, hs, hc, Bool.false_eq_true, if_false]

theorem DeleteInflight_open (s : Store) (h : Handle) (id : String)
    (hs : s.dbh = some h) (hc : h.closed = false) :
    DeleteInflight s id = .ok { s with dbh := some { h with db :=
      { h.db with messages := eraseById Message.ID h.db.messages id } } } := by
  simp only [DeleteInflight, hs, hc, Bool.false_eq_true, if_false]

theorem DeleteClient_open (s : Store) (h : Handle) (id : String)
    (hs : s.dbh = some h) (hc : h.closed = false) :
    DeleteClient s id = .ok { s with dbh := some { h with db :=
      { h.db with clients := eraseById Client.ID h.db.clients id } } } := by
  simp only [DeleteClient, hs, hc, Bool.false_eq_true, if_false]

theorem DeleteSubscription_open (s : Store) (h : Handle) (id : String)
    (hs : s.dbh = some h) (hc : h.closed = false) :
    DeleteSubscription s id = .ok { s with dbh := some { h with db :=
      { h.db with subscriptions := eraseById Subscription.ID h.db.subscriptions id } } } := by
  simp only [DeleteSubscription, hs, hc, Bool.false_eq_true, if_false]

theorem ReadInflight_open (s : Store) (h : Handle)
    (hs : s.dbh = some h) (hc : h.closed = false) :
    ReadInflight s = .ok (h.db.messages.filter (fun m => m.T = KInflight)) := by
  simp only [ReadInflight, hs, hc, Bool.false_eq_true, if_false, findByT]
  by_cases hE : (h.db.messages.filter (fun m => decide (m.T = KInflight))).isEmpty
  · rw [if_pos hE]
    rw [List.isEmpty_iff] at hE
    rw [hE]
  · rw [if_neg hE]

theorem ReadRetained_open (s : Store) (h : Handle)
    (hs : s.dbh = some h) (hc : h.closed = false) :
    ReadRetained s = .ok (h.db.messages.filter (fun m => m.T = KRetained)) := by
  simp only [ReadRetained, hs, hc, Bool.false_eq_true, if_false, findByT]
  by_cases hE : (h.db.messages.filter (fun m => decide (m.T = KRetained))).isEmpty
  · rw [if_pos hE]
    rw [List.isEmpty_iff] at hE
    rw [hE]
  · rw [if_neg hE]

theorem ReadClients_open (s : Store) (h : Handle)
    (hs : s.dbh = some h) (hc : h.closed = false) :
    ReadClients s = .ok (h.db.clients.filter (fun r => r.T = KClient)) := by
  simp only [ReadClients, hs, hc, Bool.false_eq_true, if_false, findByT]
  by_cases hE : (h.db.clients.filter (fun r => decide (r.T = KClient))).isEmpty
  · rw [if_pos hE]
    rw [List.isEmpty_iff] at hE
    rw [hE]
  · rw [if_neg hE]

theorem ReadSubscriptions_open (s : Store) (h : Handle)
    (hs : s.dbh = some h) (hc : h.closed = false) :
    ReadSubscriptions s = .ok (h.db.subscriptions.filter (fun r => r.T = KSubscription)) := by
  simp only [ReadSubscriptions, hs, hc, Bool.false_eq_true, if_false, findByT]
  by_cases hE : (h.db.subscriptions.filter (fun r => decide (r.T = KSubscription))).isEmpty
  · rw [if_pos hE]
    rw [List.isEmpty_iff] at hE
    rw [hE]
  · rw [if_neg hE]

theorem ReadServerInfo_open (s : Store) (h : Handle)
    (hs : s.dbh = some h) (hc : h.closed = false) :
    ReadServerInfo s = .ok ((oneById h.db.serverInfo KServerInfo).getD ServerInfo.zero) := by
  simp only [ReadServerInfo, hs, hc, Bool.false_eq_true, if_false]
  cases oneById h.db.serverInfo KServerInfo <;> rfl

/-- C9: New with an empty or current-directory path substitutes the default
backing filename, with no options substitutes options whose lock-wait timeout
is 250 milliseconds, and uses any explicitly supplied path or options
unchanged. -/
theorem new_defaults (p : String) (o : Options) (hp1 : p ≠ "") (hp2 : p ≠ ".") :
    (New "" (some o)).path = defaultPath ∧
    (New "." (some o)).path = defaultPath ∧
    (New "" none).path = defaultPath ∧
    (New "" none).opts.timeout = 250 ∧
    (New p none).opts = { timeout := defaultTimeout } ∧
    (New p (some o)).path = p ∧
    (New p (some o)).opts = o := by
  refine ⟨rfl, rfl, rfl, rfl, ?_, ?_, ?_⟩ <;>
    simp [New, hp1, hp2]

/-- Witness for C9 at a concrete non-default path and explicit options. -/
theorem new_defaults_witness :
    (New "custom.db" (some ⟨100⟩)).path = "custom.db" ∧
    (New "custom.db" (some ⟨100⟩)).opts = ⟨100⟩ := by
  have h := new_defaults "custom.db" ⟨100⟩ (by decide) (by decide)
  exact ⟨h.2.2.2.2.2.1, h.2.2.2.2.2.2⟩

/-- C2: saving a message whose ID already exists overwrites the stored record:
after the second save exactly one record exists under that ID and it equals
the second payload. -/
theorem save_upsert (s : Store) (h : Handle) (v1 v2 : Message)
    (hs : s.dbh = some h) (hc : h.closed = false) (_hid : v2.ID = v1.ID) :
    ∃ s1 s2 h2, WriteInflight s v1 = .ok s1 ∧ WriteInflight s1 v2 = .ok s2 ∧
      s2.dbh = some h2 ∧
      h2.db.messages.filter (fun m => m.ID = v2.ID) = [v2] := by
  refine ⟨_, _, _, WriteInflight_open s h v1 hs hc, WriteInflight_open _ _ v2 rfl hc, rfl, ?_⟩
  exact upsert_filter_id Message.ID (upsert Message.ID h.db.messages v1) v2

/-- Witness for C2: two saves under the ID a, the survivor is the second
record. -/
theorem save_upsert_witness :
    ∃ s1 s2 h2,
      WriteInflight ⟨"p", ⟨250⟩, some ⟨false, DB.empty⟩, 0⟩
          ⟨"a", KInflight, 1, "first"⟩ = .ok s1 ∧
      WriteInflight s1 ⟨"a", KInflight, 2, "second"⟩ = .ok s2 ∧
      s2.dbh = some h2 ∧
      h2.db.messages.filter
        (fun m => m.ID = Message.ID ⟨"a", KInflight, 2, "second"⟩) =
        [⟨"a", KInflight, 2, "second"⟩] :=
  save_upsert ⟨"p", ⟨250⟩, some ⟨false, DB.empty⟩, 0⟩ ⟨false, DB.empty⟩
    ⟨"a", KInflight, 1, "first"⟩ ⟨"a", KInflight, 2, "second"⟩ rfl rfl rfl

/-- C4: the Retained-kind read returns only records whose discriminator is
KRetained and the Inflight-kind read only records whose discriminator is
KInflight, although both kinds share one container. -/
theorem read_kind_discriminator (s : Store) (h : Handle)
    (hs : s.dbh = some h) (hc : h.closed = false) :
    (∀ v, ReadRetained s = .ok v → ∀ m ∈ v, m.T = KRetained) ∧
    (∀ v, ReadInflight s = .ok v → ∀ m ∈ v, m.T = KInflight) := by
  constructor
  · intro v hv m hm
    rw [ReadRetained_open s h hs hc] at hv
    simp only [Except.ok.injEq] at hv
    subst hv
    exact of_decide_eq_true (List.mem_filter.mp hm).2
  · intro v hv m hm
    rw [ReadInflight_open s h hs hc] at hv
    simp only [Except.ok.injEq] at hv
    subst hv
    exact of_decide_eq_true (List.mem_filter.mp hm).2

/-- C5: engine not-found is swallowed: a kind read whose engine Find reports
not-found returns the empty list with no error, ReadServerInfo with no stored
singleton returns the zero-value record with no error, not-found is never
surfaced as an error by these reads, and on a freshly opened empty store the
reads return empty and zero-value results with no error. -/
theorem notfound_swallowed (s : Store) (h : Handle) (p : String) (o : Option Options)
    (hs : s.dbh = some h) (hc : h.closed = false) :
    (findByT Message.T h.db.messages KInflight = .error .notFound →
      ReadInflight s = .ok []) ∧
    (findByT Message.T h.db.messages KRetained = .error .notFound →
      ReadRetained s = .ok []) ∧
    (oneById h.db.serverInfo KServerInfo = none →
      ReadServerInfo s = .ok ServerInfo.zero) ∧
    ReadInflight s ≠ .error (.engine .notFound) ∧
    ReadRetained s ≠ .error (.engine .notFound) ∧
    ReadServerInfo s ≠ .error (.engine .notFound) ∧
    ReadInflight (OpenStore (New p o)) = .ok [] ∧
    ReadRetained (OpenStore (New p o)) = .ok [] ∧
    ReadServerInfo (OpenStore (New p o)) = .ok ServerInfo.zero := by
  refine ⟨?_, ?_, ?_, ?_, ?_, ?_, rfl, rfl, rfl⟩
  · intro hnf
    simp only [ReadInflight, hs, hc, Bool.false_eq_true, if_false]
    rw [hnf]
  · intro hnf
    simp only [ReadRetained, hs, hc, Bool.false_eq_true, if_false]
    rw [hnf]
  · intro hnf
    simp only [ReadServerInfo, hs, hc, Bool.false_eq_true, if_false]
    rw [hnf]
  · rw [ReadInflight_open s h hs hc]
    simp
  · rw [ReadRetained_open s h hs hc]
    simp
  · rw [ReadServerInfo_open s h hs hc]
    simp

/-- Witness for C5 on a freshly opened empty store. -/
theorem notfound_swallowed_witness :
    (findByT Message.T (DB.empty).messages KInflight = .error .notFound →
      ReadInflight (OpenStore (New "w.db" none)) = .ok []) ∧
    (findByT Message.T (DB.empty).messages KRetained = .error .notFound →
      ReadRetained (OpenStore (New "w.db" none)) = .ok []) ∧
    (oneById (DB.empty).serverInfo KServerInfo = none →
      ReadServerInfo (OpenStore (New "w.db" none)) = .ok ServerInfo.zero) ∧
    ReadInflight (OpenStore (New "w.db" none)) ≠ .error (.engine .notFound) ∧
    ReadRetained (OpenStore (New "w.db" none)) ≠ .error (.engine .notFound) ∧
    ReadServerInfo (OpenStore (New "w.db" none)) ≠ .error (.engine .notFound) ∧
    ReadInflight (OpenStore (New "x.db" none)) = .ok [] ∧
    ReadRetained (OpenStore (New "x.db" none)) = .ok [] ∧
    ReadServerInfo (OpenStore (New "x.db" none)) = .ok ServerInfo.zero :=
  notfound_swallowed (OpenStore (New "w.db" none)) ⟨false, DB.empty⟩ "x.db" none rfl rfl

/-- Witness for C4 on a store holding one record of each Message kind. -/
theorem read_kind_discriminator_witness :
    (∀ v, ReadRetained ⟨"p", ⟨250⟩,
        some ⟨false, ⟨[], [], [], [⟨"a", KInflight, 1, "x"⟩, ⟨"b", KRetained, 2, "y"⟩]⟩⟩,
        0⟩ = .ok v → ∀ m ∈ v, m.T = KRetained) ∧
    (∀ v, ReadInflight ⟨"p", ⟨250⟩,
        some ⟨false, ⟨[], [], [], [⟨"a", KInflight, 1, "x"⟩, ⟨"b", KRetained, 2, "y"⟩]⟩⟩,
        0⟩ = .ok v → ∀ m ∈ v, m.T = KInflight) :=
  read_kind_discriminator _ _ rfl rfl

/-- C10: SetInflightTTL changes only the inflightTTL field, and every other
operation commutes with it — its result is independent of the stored TTL; in
particular the expiry sweep, for any fault oracle and threshold, is decided
only by its explicit expiry argument. -/
theorem setInflightTTL_frame (s : Store) (n : Int) (v : Message) (c : Client)
    (u : Subscription) (si : ServerInfo) (id : String) (t : Int)
    (fails : String → Bool) :
    (SetInflightTTL s n).path = s.path ∧
    (SetInflightTTL s n).opts = s.opts ∧
    (SetInflightTTL s n).dbh = s.dbh ∧
    (SetInflightTTL s n).inflightTTL = n ∧
    ReadInflight (SetInflightTTL s n) = ReadInflight s ∧
    ReadRetained (SetInflightTTL s n) = ReadRetained s ∧
    ReadClients (SetInflightTTL s n) = ReadClients s ∧
    ReadSubscriptions (SetInflightTTL s n) = ReadSubscriptions s ∧
    ReadServerInfo (SetInflightTTL s n) = ReadServerInfo s ∧
    WriteInflight (SetInflightTTL s n) v
      = (WriteInflight s v).map (fun s1 => SetInflightTTL s1 n) ∧
    WriteRetained (SetInflightTTL s n) v
      = (WriteRetained s v).map (fun s1 => SetInflightTTL s1 n) ∧
    WriteClient (SetInflightTTL s n) c
      = (WriteClient s c).map (fun s1 => SetInflightTTL s1 n) ∧
    WriteSubscription (SetInflightTTL s n) u
      = (WriteSubscription s u).map (fun s1 => SetInflightTTL s1 n) ∧
    WriteServerInfo (SetInflightTTL s n) si
      = (WriteServerInfo s si).map (fun s1 => SetInflightTTL s1 n) ∧
    DeleteInflight (SetInflightTTL s n) id
      = (DeleteInflight s id).map (fun s1 => SetInflightTTL s1 n) ∧
    DeleteRetained (SetInflightTTL s n) id
      = (DeleteRetained s id).map (fun s1 => SetInflightTTL s1 n) ∧
    DeleteClient (SetInflightTTL s n) id
      = (DeleteClient s id).map (fun s1 => SetInflightTTL s1 n) ∧
    DeleteSubscription (SetInflightTTL s n) id
      = (DeleteSubscription s id).map (fun s1 => SetInflightTTL s1 n) ∧
    (ClearExpiredInflightGen fails (SetInflightTTL s n) t).1
      = SetInflightTTL (ClearExpiredInflightGen fails s t).1 n ∧
    (ClearExpiredInflightGen fails (SetInflightTTL s n) t).2
      = (ClearExpiredInflightGen fails s t).2 := by
  rcases s with ⟨p, o, dbh, ttl⟩
  rcases dbh with _ | ⟨cl, db⟩
  · exact ⟨rfl, rfl, rfl, rfl, rfl, rfl, rfl, rfl, rfl, rfl, rfl, rfl, rfl, rfl,
      rfl, rfl, rfl, rfl, rfl, rfl⟩
  · cases cl
    · exact ⟨rfl, rfl, rfl, rfl, rfl, rfl, rfl, rfl, rfl, rfl, rfl, rfl, rfl, rfl,
        rfl, rfl, rfl, rfl, rfl, rfl⟩
    · exact ⟨rfl, rfl, rfl, rfl, rfl, rfl, rfl, rfl, rfl, rfl, rfl, rfl, rfl, rfl,
        rfl, rfl, rfl, rfl, rfl, rfl⟩

/-- C7 counterexample: on a never-opened store, Close dereferences the nil
handle (panic outcome) instead of returning the StoreUnavailable error; and
after Open followed by Close the handle stays non-nil, so a subsequent write
reaches the closed engine and fails with the engine's closed-database error,
not with ErrDBNotOpen. -/
theorem store_unavailable_counterexample :
    Close (New "db1" none) = CloseResult.nilPanic ∧
    Close (OpenStore (New "db1" none)) =
      .ok ⟨"db1", ⟨250⟩, some ⟨true, DB.empty⟩, 0⟩ ∧
    WriteInflight ⟨"db1", ⟨250⟩, some ⟨true, DB.empty⟩, 0⟩ ⟨"m", KInflight, 5, "x"⟩
      = .error (.engine .databaseClosed) ∧
    Err.engine .databaseClosed ≠ Err.dbNotOpen := by
  exact ⟨rfl, rfl, rfl, by decide⟩

/-- C7 (amended): on a store whose handle is nil (Open never called), every
save, delete, read and sweep operation returns ErrDBNotOpen, but Close
dereferences the nil handle instead of returning an error; and Close does not
clear the handle, so after Open and Close the operations are not guarded by
the nil check and reach the closed engine. -/
theorem store_unavailable_amended (s : Store) (hnil : s.dbh = none)
    (v : Message) (c : Client) (u : Subscription) (si : ServerInfo)
    (id : String) (t : Int) :
    WriteServerInfo s si = .error .dbNotOpen ∧
    WriteSubscription s u = .error .dbNotOpen ∧
    WriteInflight s v = .error .dbNotOpen ∧
    WriteRetained s v = .error .dbNotOpen ∧
    WriteClient s c = .error .dbNotOpen ∧
    DeleteSubscription s id = .error .dbNotOpen ∧
    DeleteClient s id = .error .dbNotOpen ∧
    DeleteInflight s id = .error .dbNotOpen ∧
    DeleteRetained s id = .error .dbNotOpen ∧
    ReadSubscriptions s = .error .dbNotOpen ∧
    ReadClients s = .error .dbNotOpen ∧
    ReadInflight s = .error .dbNotOpen ∧
    ReadRetained s = .error .dbNotOpen ∧
    ReadServerInfo s = .error .dbNotOpen ∧
    (ClearExpiredInflight s t).2 = some .dbNotOpen ∧
    Close s = .nilPanic ∧
    Close (OpenStore s) = .ok { s with dbh := some ⟨true, DB.empty⟩ } ∧
    ({ s with dbh := some ⟨true, DB.empty⟩ } : Store).dbh ≠ none ∧
    WriteInflight { s with dbh := some ⟨true, DB.empty⟩ } v
      = .error (.engine .databaseClosed) := by
  rcases s with ⟨p, o, dbh, ttl⟩
  simp only at hnil
  subst hnil
  exact ⟨rfl, rfl, rfl, rfl, rfl, rfl, rfl, rfl, rfl, rfl, rfl, rfl, rfl, rfl,
    rfl, rfl, rfl, by simp, rfl⟩

/-- Witness for the amended C7 on a freshly constructed store. -/
theorem store_unavailable_amended_witness :
    WriteServerInfo (New "w7.db" none) ⟨"i", "x"⟩ = .error .dbNotOpen ∧
    WriteSubscription (New "w7.db" none) ⟨"s", KSubscription, "x"⟩ = .error .dbNotOpen ∧
    WriteInflight (New "w7.db" none) ⟨"m", KInflight, 1, "x"⟩ = .error .dbNotOpen ∧
    WriteRetained (New "w7.db" none) ⟨"m", KInflight, 1, "x"⟩ = .error .dbNotOpen ∧
    WriteClient (New "w7.db" none) ⟨"c", KClient, "x"⟩ = .error .dbNotOpen ∧
    DeleteSubscription (New "w7.db" none) "s" = .error .dbNotOpen ∧
    DeleteClient (New "w7.db" none) "s" = .error .dbNotOpen ∧
    DeleteInflight (New "w7.db" none) "s" = .error .dbNotOpen ∧
    DeleteRetained (New "w7.db" none) "s" = .error .dbNotOpen ∧
    ReadSubscriptions (New "w7.db" none) = .error .dbNotOpen ∧
    ReadClients (New "w7.db" none) = .error .dbNotOpen ∧
    ReadInflight (New "w7.db" none) = .error .dbNotOpen ∧
    ReadRetained (New "w7.db" none) = .error .dbNotOpen ∧
    ReadServerInfo (New "w7.db" none) = .error .dbNotOpen ∧
    (ClearExpiredInflight (New "w7.db" none) 9).2 = some .dbNotOpen ∧
    Close (New "w7.db" none) = .nilPanic ∧
    Close (OpenStore (New "w7.db" none)) =
      .ok { New "w7.db" none with dbh := some ⟨true, DB.empty⟩ } ∧
    ({ New "w7.db" none with dbh := some ⟨true, DB.empty⟩ } : Store).dbh ≠ none ∧
    WriteInflight { New "w7.db" none with dbh := some ⟨true, DB.empty⟩ }
      ⟨"m", KInflight, 1, "x"⟩ = .error (.engine .databaseClosed) :=
  store_unavailable_amended (New "w7.db" none) rfl ⟨"m", KInflight, 1, "x"⟩
    ⟨"c", KClient, "x"⟩ ⟨"s", KSubscription, "x"⟩ ⟨"i", "x"⟩ "s" 9

theorem eraseById_of_absent {α : Type} (idOf : α → String) (l : List α) (id : String)
    (hm : ∀ a ∈ l, idOf a ≠ id) : eraseById idOf l id = l :=
  List.filter_eq_self.mpr (fun a ha => decide_eq_true (hm a ha))

theorem nodupIDs_filter_id_length (l : List Message) (id : String)
    (hn : NodupIDs l) : (l.filter (fun m => m.ID = id)).length ≤ 1 := by
  induction l with
  | nil => simp
  | cons a l ih =>
    rw [NodupIDs, List.pairwise_cons] at hn
    by_cases ha : a.ID = id
    · rw [List.filter_cons_of_pos (by simpa using ha)]
      rw [List.filter_eq_nil_iff.mpr]
      · simp
      · intro b hb
        simp only [decide_eq_true_eq]
        intro hbid
        exact hn.1 b hb (ha.trans hbid.symm)
    · rw [List.filter_cons_of_neg (by simpa using ha)]
      exact ih hn.2

/-- C3 counterexample: in a store whose only record is a Retained message with
ID a, the id a is not the ID of any Inflight-kind record, yet
DeleteInflight(a) succeeds and changes the store: the shared Message container
is keyed by ID alone, so the Retained record is removed. -/
theorem delete_missing_id_counterexample :
    ((⟨[], [], [], [⟨"a", KRetained, 7, "x"⟩]⟩ : DB).messages.filter
        (fun m => m.T = KInflight)) = [] ∧
    DeleteInflight
        ⟨"p", ⟨250⟩, some ⟨false, ⟨[], [], [], [⟨"a", KRetained, 7, "x"⟩]⟩⟩, 0⟩ "a"
      = .ok ⟨"p", ⟨250⟩, some ⟨false, DB.empty⟩, 0⟩ ∧
    (⟨"p", ⟨250⟩, some ⟨false, DB.empty⟩, 0⟩ : Store)
      ≠ ⟨"p", ⟨250⟩, some ⟨false, ⟨[], [], [], [⟨"a", KRetained, 7, "x"⟩]⟩⟩, 0⟩ := by
  exact ⟨by decide, rfl, by decide⟩

/-- C3 (amended): Delete on an id that is not the primary key of any record in
the kind's underlying container (for the Message kinds: of neither Message
kind, since they share one container) returns success and leaves the store
unchanged, and the subsequent kind reads exclude that id. -/
theorem delete_missing_id_noop (s : Store) (h : Handle) (id : String)
    (hs : s.dbh = some h) (hc : h.closed = false)
    (hm : ∀ m ∈ h.db.messages, m.ID ≠ id)
    (hcl : ∀ x ∈ h.db.clients, x.ID ≠ id)
    (hsb : ∀ x ∈ h.db.subscriptions, x.ID ≠ id) :
    DeleteInflight s id = .ok s ∧ DeleteRetained s id = .ok s ∧
    DeleteClient s id = .ok s ∧ DeleteSubscription s id = .ok s ∧
    (∃ w, ReadInflight s = .ok w ∧ ∀ m ∈ w, m.ID ≠ id) ∧
    (∃ w, ReadRetained s = .ok w ∧ ∀ m ∈ w, m.ID ≠ id) ∧
    (∃ w, ReadClients s = .ok w ∧ ∀ x ∈ w, x.ID ≠ id) ∧
    (∃ w, ReadSubscriptions s = .ok w ∧ ∀ x ∈ w, x.ID ≠ id) := by
  have hsome : ({ s with dbh := some h } : Store) = s := by rw [← hs]
  have hdelM : DeleteInflight s id = .ok s := by
    rw [DeleteInflight_open s h id hs hc, eraseById_of_absent Message.ID _ _ hm]
    exact congrArg Except.ok hsome
  refine ⟨hdelM, hdelM, ?_, ?_, ?_, ?_, ?_, ?_⟩
  · rw [DeleteClient_open s h id hs hc, eraseById_of_absent Client.ID _ _ hcl]
    exact congrArg Except.ok hsome
  · rw [DeleteSubscription_open s h id hs hc, eraseById_of_absent Subscription.ID _ _ hsb]
    exact congrArg Except.ok hsome
  · exact ⟨_, ReadInflight_open s h hs hc,
      fun m hmem => hm m (List.mem_filter.mp hmem).1⟩
  · exact ⟨_, ReadRetained_open s h hs hc,
      fun m hmem => hm m (List.mem_filter.mp hmem).1⟩
  · exact ⟨_, ReadClients_open s h hs hc,
      fun x hmem => hcl x (List.mem_filter.mp hmem).1⟩
  · exact ⟨_, ReadSubscriptions_open s h hs hc,
      fun x hmem => hsb x (List.mem_filter.mp hmem).1⟩

/-- Witness for the amended C3: deleting the absent id z from a store holding
one message, one client and one subscription under other ids. -/
theorem delete_missing_id_noop_witness :
    DeleteInflight
        ⟨"p", ⟨250⟩, some ⟨false, ⟨[], [⟨"c", KClient, "y"⟩], [⟨"s", KSubscription, "z"⟩],
          [⟨"a", KInflight, 3, "x"⟩]⟩⟩, 0⟩ "q"
      = .ok ⟨"p", ⟨250⟩, some ⟨false, ⟨[], [⟨"c", KClient, "y"⟩], [⟨"s", KSubscription, "z"⟩],
          [⟨"a", KInflight, 3, "x"⟩]⟩⟩, 0⟩ ∧
    DeleteRetained
        ⟨"p", ⟨250⟩, some ⟨false, ⟨[], [⟨"c", KClient, "y"⟩], [⟨"s", KSubscription, "z"⟩],
          [⟨"a", KInflight, 3, "x"⟩]⟩⟩, 0⟩ "q"
      = .ok ⟨"p", ⟨250⟩, some ⟨false, ⟨[], [⟨"c", KClient, "y"⟩], [⟨"s", KSubscription, "z"⟩],
          [⟨"a", KInflight, 3, "x"⟩]⟩⟩, 0⟩ ∧
    DeleteClient
        ⟨"p", ⟨250⟩, some ⟨false, ⟨[], [⟨"c", KClient, "y"⟩], [⟨"s", KSubscription, "z"⟩],
          [⟨"a", KInflight, 3, "x"⟩]⟩⟩, 0⟩ "q"
      = .ok ⟨"p", ⟨250⟩, some ⟨false, ⟨[], [⟨"c", KClient, "y"⟩], [⟨"s", KSubscription, "z"⟩],
          [⟨"a", KInflight, 3, "x"⟩]⟩⟩, 0⟩ ∧
    DeleteSubscription
        ⟨"p", ⟨250⟩, some ⟨false, ⟨[], [⟨"c", KClient, "y"⟩], [⟨"s", KSubscription, "z"⟩],
          [⟨"a", KInflight, 3, "x"⟩]⟩⟩, 0⟩ "q"
      = .ok ⟨"p", ⟨250⟩, some ⟨false, ⟨[], [⟨"c", KClient, "y"⟩], [⟨"s", KSubscription, "z"⟩],
          [⟨"a", KInflight, 3, "x"⟩]⟩⟩, 0⟩ ∧
    (∃ w, ReadInflight
        ⟨"p", ⟨250⟩, some ⟨false, ⟨[], [⟨"c", KClient, "y"⟩], [⟨"s", KSubscription, "z"⟩],
          [⟨"a", KInflight, 3, "x"⟩]⟩⟩, 0⟩ = .ok w ∧ ∀ m ∈ w, m.ID ≠ "q") ∧
    (∃ w, ReadRetained
        ⟨"p", ⟨250⟩, some ⟨false, ⟨[], [⟨"c", KClient, "y"⟩], [⟨"s", KSubscription, "z"⟩],
          [⟨"a", KInflight, 3, "x"⟩]⟩⟩, 0⟩ = .ok w ∧ ∀ m ∈ w, m.ID ≠ "q") ∧
    (∃ w, ReadClients
        ⟨"p", ⟨250⟩, some ⟨false, ⟨[], [⟨"c", KClient, "y"⟩], [⟨"s", KSubscription, "z"⟩],
          [⟨"a", KInflight, 3, "x"⟩]⟩⟩, 0⟩ = .ok w ∧ ∀ x ∈ w, x.ID ≠ "q") ∧
    (∃ w, ReadSubscriptions
        ⟨"p", ⟨250⟩, some ⟨false, ⟨[], [⟨"c", KClient, "y"⟩], [⟨"s", KSubscription, "z"⟩],
          [⟨"a", KInflight, 3, "x"⟩]⟩⟩, 0⟩ = .ok w ∧ ∀ x ∈ w, x.ID ≠ "q") :=
  delete_missing_id_noop
    ⟨"p", ⟨250⟩, some ⟨false, ⟨[], [⟨"c", KClient, "y"⟩], [⟨"s", KSubscription, "z"⟩],
      [⟨"a", KInflight, 3, "x"⟩]⟩⟩, 0⟩
    ⟨false, ⟨[], [⟨"c", KClient, "y"⟩], [⟨"s", KSubscription, "z"⟩],
      [⟨"a", KInflight, 3, "x"⟩]⟩⟩ "q" rfl rfl (by decide) (by decide) (by decide)

/-- C8 counterexample: the store holds a single Retained-kind record with ID
a; the claim says the Inflight-kind delete leaves a record of the other
Message kind sharing the ID unchanged, but DeleteInflight(a) removes it. -/
theorem delete_frame_counterexample :
    DeleteInflight
        ⟨"p", ⟨250⟩, some ⟨false, ⟨[], [], [], [⟨"a", KRetained, 7, "x"⟩]⟩⟩, 0⟩ "a"
      = .ok ⟨"p", ⟨250⟩, some ⟨false, ⟨[], [], [], []⟩⟩, 0⟩ ∧
    KRetained ≠ KInflight := by
  exact ⟨rfl, by decide⟩

/-- C8 (amended): Delete removes at most the record keyed by the given ID in
the kind's underlying container (with unique IDs the removed records number at
most one): records with other IDs and the containers of other kinds are
unchanged; for the two Message kinds the container is shared and the deletion
keys on the ID alone, so DeleteInflight and DeleteRetained are the same
operation and remove whichever Message record holds that ID. -/
theorem delete_frame (s : Store) (h : Handle) (id : String)
    (hs : s.dbh = some h) (hc : h.closed = false) (hn : NodupIDs h.db.messages) :
    (∃ h2, DeleteInflight s id = .ok { s with dbh := some h2 } ∧
      h2.closed = false ∧
      h2.db.serverInfo = h.db.serverInfo ∧
      h2.db.clients = h.db.clients ∧
      h2.db.subscriptions = h.db.subscriptions ∧
      h2.db.messages = h.db.messages.filter (fun m => m.ID ≠ id) ∧
      (h.db.messages.filter (fun m => m.ID = id)).length ≤ 1) ∧
    DeleteRetained s id = DeleteInflight s id ∧
    (∃ h3, DeleteClient s id = .ok { s with dbh := some h3 } ∧
      h3.db.serverInfo = h.db.serverInfo ∧
      h3.db.messages = h.db.messages ∧
      h3.db.subscriptions = h.db.subscriptions ∧
      h3.db.clients = h.db.clients.filter (fun x => x.ID ≠ id)) ∧
    (∃ h4, DeleteSubscription s id = .ok { s with dbh := some h4 } ∧
      h4.db.serverInfo = h.db.serverInfo ∧
      h4.db.messages = h.db.messages ∧
      h4.db.clients = h.db.clients ∧
      h4.db.subscriptions = h.db.subscriptions.filter (fun x => x.ID ≠ id)) := by
  refine ⟨⟨_, DeleteInflight_open s h id hs hc, hc, rfl, rfl, rfl, rfl,
      nodupIDs_filter_id_length h.db.messages id hn⟩,
    rfl,
    ⟨_, DeleteClient_open s h id hs hc, rfl, rfl, rfl, rfl⟩,
    ⟨_, DeleteSubscription_open s h id hs hc, rfl, rfl, rfl, rfl⟩⟩

/-- Witness for the amended C8: deleting id a from a store holding two
messages, a client and a subscription. -/
theorem delete_frame_witness :
    (∃ h2, DeleteInflight
        ⟨"p", ⟨250⟩, some ⟨false, ⟨[⟨"srv", "i"⟩], [⟨"a", KClient, "y"⟩], [⟨"u", KSubscription, "z"⟩],
          [⟨"a", KInflight, 3, "x"⟩, ⟨"b", KRetained, 4, "w"⟩]⟩⟩, 0⟩ "a"
      = .ok { (⟨"p", ⟨250⟩, some ⟨false, ⟨[⟨"srv", "i"⟩], [⟨"a", KClient, "y"⟩],
          [⟨"u", KSubscription, "z"⟩],
          [⟨"a", KInflight, 3, "x"⟩, ⟨"b", KRetained, 4, "w"⟩]⟩⟩, 0⟩ : Store)
          with dbh := some h2 } ∧
      h2.closed = false ∧
      h2.db.serverInfo = [⟨"srv", "i"⟩] ∧
      h2.db.clients = [⟨"a", KClient, "y"⟩] ∧
      h2.db.subscriptions = [⟨"u", KSubscription, "z"⟩] ∧
      h2.db.messages = [⟨"a", KInflight, 3, "x"⟩, ⟨"b", KRetained, 4, "w"⟩].filter
        (fun m => m.ID ≠ "a") ∧
      ([⟨"a", KInflight, 3, "x"⟩, ⟨"b", KRetained, 4, "w"⟩].filter
        (fun m => Message.ID m = "a")).length ≤ 1) ∧
    DeleteRetained
        ⟨"p", ⟨250⟩, some ⟨false, ⟨[⟨"srv", "i"⟩], [⟨"a", KClient, "y"⟩], [⟨"u", KSubscription, "z"⟩],
          [⟨"a", KInflight, 3, "x"⟩, ⟨"b", KRetained, 4, "w"⟩]⟩⟩, 0⟩ "a"
      = DeleteInflight
        ⟨"p", ⟨250⟩, some ⟨false, ⟨[⟨"srv", "i"⟩], [⟨"a", KClient, "y"⟩], [⟨"u", KSubscription, "z"⟩],
          [⟨"a", KInflight, 3, "x"⟩, ⟨"b", KRetained, 4, "w"⟩]⟩⟩, 0⟩ "a" ∧
    (∃ h3, DeleteClient
        ⟨"p", ⟨250⟩, some ⟨false, ⟨[⟨"srv", "i"⟩], [⟨"a", KClient, "y"⟩], [⟨"u", KSubscription, "z"⟩],
          [⟨"a", KInflight, 3, "x"⟩, ⟨"b", KRetained, 4, "w"⟩]⟩⟩, 0⟩ "a"
      = .ok { (⟨"p", ⟨250⟩, some ⟨false, ⟨[⟨"srv", "i"⟩], [⟨"a", KClient, "y"⟩],
          [⟨"u", KSubscription, "z"⟩],
          [⟨"a", KInflight, 3, "x"⟩, ⟨"b", KRetained, 4, "w"⟩]⟩⟩, 0⟩ : Store)
          with dbh := some h3 } ∧
      h3.db.serverInfo = [⟨"srv", "i"⟩] ∧
      h3.db.messages = [⟨"a", KInflight, 3, "x"⟩, ⟨"b", KRetained, 4, "w"⟩] ∧
      h3.db.subscriptions = [⟨"u", KSubscription, "z"⟩] ∧
      h3.db.clients = [⟨"a", KClient, "y"⟩].filter (fun x => x.ID ≠ "a")) ∧
    (∃ h4, DeleteSubscription
        ⟨"p", ⟨250⟩, some ⟨false, ⟨[⟨"srv", "i"⟩], [⟨"a", KClient, "y"⟩], [⟨"u", KSubscription, "z"⟩],
          [⟨"a", KInflight, 3, "x"⟩, ⟨"b", KRetained, 4, "w"⟩]⟩⟩, 0⟩ "a"
      = .ok { (⟨"p", ⟨250⟩, some ⟨false, ⟨[⟨"srv", "i"⟩], [⟨"a", KClient, "y"⟩],
          [⟨"u", KSubscription, "z"⟩],
          [⟨"a", KInflight, 3, "x"⟩, ⟨"b", KRetained, 4, "w"⟩]⟩⟩, 0⟩ : Store)
          with dbh := some h4 } ∧
      h4.db.serverInfo = [⟨"srv", "i"⟩] ∧
      h4.db.messages = [⟨"a", KInflight, 3, "x"⟩, ⟨"b", KRetained, 4, "w"⟩] ∧
      h4.db.clients = [⟨"a", KClient, "y"⟩] ∧
      h4.db.subscriptions = [⟨"u", KSubscription, "z"⟩].filter (fun x => x.ID ≠ "a")) :=
  delete_frame
    ⟨"p", ⟨250⟩, some ⟨false, ⟨[⟨"srv", "i"⟩], [⟨"a", KClient, "y"⟩], [⟨"u", KSubscription, "z"⟩],
      [⟨"a", KInflight, 3, "x"⟩, ⟨"b", KRetained, 4, "w"⟩]⟩⟩, 0⟩
    ⟨false, ⟨[⟨"srv", "i"⟩], [⟨"a", KClient, "y"⟩], [⟨"u", KSubscription, "z"⟩],
      [⟨"a", KInflight, 3, "x"⟩, ⟨"b", KRetained, 4, "w"⟩]⟩⟩ "a" rfl rfl (by decide)

/-- sweepFold is the state left by a fault-free run of the deletion loop over
a record list: each stale record's ID is erased in order. -/
def sweepFold (expiry : Int) (db : DB) (v : List Message) : DB :=
  v.foldl (fun d m => if isStale expiry m then d.deleteMessage m.ID else d) db

theorem sweepGo_noFail (expiry : Int) (v : List Message) : ∀ (db : DB),
    sweepGo (fun _ => false) expiry db v = (sweepFold expiry db v, none) := by
  induction v with
  | nil => intro db; rfl
  | cons m v ih =>
    intro db
    by_cases hst : isStale expiry m
    · simp only [sweepGo, sweepFold, hst, if_true, Bool.false_eq_true, if_false,
        List.foldl_cons]
      exact ih (db.deleteMessage m.ID)
    · simp only [sweepGo, sweepFold, hst, if_false, Bool.false_eq_true,
        List.foldl_cons]
      exact ih db

theorem mem_deleteMessage (db : DB) (id : String) (m : Message) :
    m ∈ (db.deleteMessage id).messages ↔ (m ∈ db.messages ∧ m.ID ≠ id) := by
  simp [DB.deleteMessage, eraseById, List.mem_filter]

theorem sweepFold_mem (expiry : Int) (v : List Message) : ∀ (db : DB) (m : Message),
    m ∈ (sweepFold expiry db v).messages ↔
      (m ∈ db.messages ∧ ∀ x ∈ v, isStale expiry x → m.ID ≠ x.ID) := by
  induction v with
  | nil => intro db m; simp [sweepFold]
  | cons x v ih =>
    intro db m
    by_cases hst : isStale expiry x
    · rw [sweepFold, List.foldl_cons, if_pos hst]
      rw [show List.foldl (fun d m => if isStale expiry m then d.deleteMessage m.ID else d)
          (db.deleteMessage x.ID) v = sweepFold expiry (db.deleteMessage x.ID) v from rfl]
      rw [ih, mem_deleteMessage]
      constructor
      · rintro ⟨⟨hmem, hne⟩, hall⟩
        refine ⟨hmem, ?_⟩
        intro y hy _hys
        rcases List.mem_cons.mp hy with rfl | hy2
        · intro he; exact hne he
        · exact hall y hy2 _hys
      · rintro ⟨hmem, hall⟩
        exact ⟨⟨hmem, hall x (List.mem_cons_self x v) hst⟩,
          fun y hy hys => hall y (List.mem_cons_of_mem x hy) hys⟩
    · rw [sweepFold, List.foldl_cons, if_neg hst]
      rw [show List.foldl (fun d m => if isStale expiry m then d.deleteMessage m.ID else d)
          db v = sweepFold expiry db v from rfl]
      rw [ih]
      constructor
      · rintro ⟨hmem, hall⟩
        refine ⟨hmem, ?_⟩
        intro y hy hys
        rcases List.mem_cons.mp hy with rfl | hy2
        · exact absurd hys (by simp [hst])
        · exact hall y hy2 hys
      · rintro ⟨hmem, hall⟩
        exact ⟨hmem, fun y hy hys => hall y (List.mem_cons_of_mem x hy) hys⟩

theorem not_stale_iff (t : Int) (m : Message) :
    isStale t m = false ↔ (t ≤ m.Created ∧ m.Created ≠ 0) := by
  simp only [isStale, Bool.or_eq_false_iff, decide_eq_false_iff_not, not_lt]

theorem nodupIDs_id_inj {l : List Message} (hn : NodupIDs l) {a b : Message}
    (ha : a ∈ l) (hb : b ∈ l) (hid : a.ID = b.ID) : a = b := by
  induction l with
  | nil => cases ha
  | cons x l ih =>
    rw [NodupIDs, List.pairwise_cons] at hn
    rcases List.mem_cons.mp ha with rfl | ha2
    · rcases List.mem_cons.mp hb with rfl | hb2
      · rfl
      · exact absurd hid (hn.1 b hb2)
    · rcases List.mem_cons.mp hb with rfl | hb2
      · exact absurd hid.symm (hn.1 a ha2)
      · exact ih hn.2 ha2 hb2

/-- C1: on an open store with uniquely keyed messages, ClearExpiredInflight(t)
returns no error, and a record survives the sweep exactly when it was stored
and, if it is of the Inflight kind, its created timestamp is at least t and
nonzero: every Inflight record with created before t or equal to zero is
deleted, every other record is retained. -/
theorem clearExpiredInflight_spec (s : Store) (h : Handle) (t : Int)
    (hs : s.dbh = some h) (hc : h.closed = false) (hn : NodupIDs h.db.messages) :
    (ClearExpiredInflight s t).2 = none ∧
    ∃ h2, (ClearExpiredInflight s t).1.dbh = some h2 ∧
      ∀ m, m ∈ h2.db.messages ↔
        (m ∈ h.db.messages ∧
          (m.T = KInflight → t ≤ m.Created ∧ m.Created ≠ 0)) := by
  have hrun2 : (ClearExpiredInflight s t).2 = none := by
    simp only [ClearExpiredInflight, ClearExpiredInflightGen, hs, hc,
      Bool.false_eq_true, if_false, sweepGo_noFail]
  have hrun1 : (ClearExpiredInflight s t).1.dbh = some { h with db := sweepFold t h.db (h.db.messages.filter (fun m => m.T = KInflight)) } := by
    simp only [ClearExpiredInflight, ClearExpiredInflightGen, hs, hc,
      Bool.false_eq_true, if_false, sweepGo_noFail]
  refine ⟨hrun2, ⟨_, hrun1, ?_⟩⟩
  intro m
  rw [sweepFold_mem]
  constructor
  · rintro ⟨hmem, hall⟩
    refine ⟨hmem, fun hT => ?_⟩
    rw [← not_stale_iff]
    cases hstE : isStale t m
    · rfl
    · exact absurd rfl
        (hall m (List.mem_filter.mpr ⟨hmem, decide_eq_true hT⟩) hstE)
  · rintro ⟨hmem, hsur⟩
    refine ⟨hmem, ?_⟩
    intro x hxf hxst hEq
    have hxmem := (List.mem_filter.mp hxf).1
    have hxT : x.T = KInflight := of_decide_eq_true (List.mem_filter.mp hxf).2
    have hxm : x = m := nodupIDs_id_inj hn hxmem hmem hEq.symm
    subst hxm
    have hfalse : isStale t x = false := (not_stale_iff t x).mpr (hsur hxT)
    rw [hxst] at hfalse
    exact Bool.noConfusion hfalse

/-- Witness for C1: records with created timestamps 0, 100, 200 and 300 and
threshold 200; the sweep returns no error and exactly the records with
created 200 and 300 survive. -/
theorem clearExpiredInflight_witness :
    ((ClearExpiredInflight
        ⟨"p", ⟨250⟩, some ⟨false, ⟨[], [], [],
          [⟨"m0", KInflight, 0, ""⟩, ⟨"m1", KInflight, 100, ""⟩,
           ⟨"m2", KInflight, 200, ""⟩, ⟨"m3", KInflight, 300, ""⟩]⟩⟩, 0⟩ 200).2 = none ∧
    ∃ h2, (ClearExpiredInflight
        ⟨"p", ⟨250⟩, some ⟨false, ⟨[], [], [],
          [⟨"m0", KInflight, 0, ""⟩, ⟨"m1", KInflight, 100, ""⟩,
           ⟨"m2", KInflight, 200, ""⟩, ⟨"m3", KInflight, 300, ""⟩]⟩⟩, 0⟩ 200).1.dbh
        = some h2 ∧
      ∀ m, m ∈ h2.db.messages ↔
        (m ∈ [⟨"m0", KInflight, 0, ""⟩, ⟨"m1", KInflight, 100, ""⟩,
           ⟨"m2", KInflight, 200, ""⟩, ⟨"m3", KInflight, 300, ""⟩] ∧
          (m.T = KInflight → 200 ≤ m.Created ∧ m.Created ≠ 0))) ∧
    (ClearExpiredInflight
        ⟨"p", ⟨250⟩, some ⟨false, ⟨[], [], [],
          [⟨"m0", KInflight, 0, ""⟩, ⟨"m1", KInflight, 100, ""⟩,
           ⟨"m2", KInflight, 200, ""⟩, ⟨"m3", KInflight, 300, ""⟩]⟩⟩, 0⟩ 200).1.dbh
      = some ⟨false, ⟨[], [], [],
          [⟨"m2", KInflight, 200, ""⟩, ⟨"m3", KInflight, 300, ""⟩]⟩⟩ :=
  ⟨clearExpiredInflight_spec
      ⟨"p", ⟨250⟩, some ⟨false, ⟨[], [], [],
        [⟨"m0", KInflight, 0, ""⟩, ⟨"m1", KInflight, 100, ""⟩,
         ⟨"m2", KInflight, 200, ""⟩, ⟨"m3", KInflight, 300, ""⟩]⟩⟩, 0⟩
      ⟨false, ⟨[], [], [],
        [⟨"m0", KInflight, 0, ""⟩, ⟨"m1", KInflight, 100, ""⟩,
         ⟨"m2", KInflight, 200, ""⟩, ⟨"m3", KInflight, 300, ""⟩]⟩⟩ 200 rfl rfl
      (by decide),
    by decide⟩

theorem sweepGo_fail (fails : String → Bool) (t : Int) (m : Message)
    (post : List Message) (hmst : isStale t m = true) (hmf : fails m.ID = true) :
    ∀ (pre : List Message) (db : DB),
      (∀ p ∈ pre, isStale t p = true → fails p.ID = false) →
      sweepGo fails t db (pre ++ m :: post)
        = (sweepFold t db pre, some (.engine .ioFailure)) := by
  intro pre
  induction pre with
  | nil =>
    intro db _hpre
    rw [List.nil_append]
    simp only [sweepGo]
    rw [if_pos hmst, if_pos hmf]
    rfl
  | cons p pre ih =>
    intro db hpre
    rw [List.cons_append]
    simp only [sweepGo]
    by_cases hst : isStale t p
    · have hf : fails p.ID = false := hpre p (List.mem_cons_self p pre) hst
      rw [if_pos hst, if_neg (by simp [hf])]
      rw [show sweepFold t db (p :: pre) = sweepFold t (db.deleteMessage p.ID) pre from by
        simp only [sweepFold, List.foldl_cons, if_pos hst]]
      exact ih (db.deleteMessage p.ID) (fun q hq => hpre q (List.mem_cons_of_mem p hq))
    · rw [if_neg hst]
      rw [show sweepFold t db (p :: pre) = sweepFold t db pre from by
        simp only [sweepFold, List.foldl_cons, if_neg hst]]
      exact ih db (fun q hq => hpre q (List.mem_cons_of_mem p hq))

/-- C6: if the deletion of a stale record fails during the sweep, the sweep
returns that error at once: the store reflects exactly the stale deletions
performed before the failing record, and no record after the failing one is
deleted (the result does not depend on the rest of the list). -/
theorem clearExpired_failFast (fails : String → Bool) (s : Store) (h : Handle)
    (t : Int) (pre post : List Message) (m : Message)
    (hs : s.dbh = some h) (hc : h.closed = false)
    (hv : h.db.messages.filter (fun x => x.T = KInflight) = pre ++ m :: post)
    (hpre : ∀ p ∈ pre, isStale t p = true → fails p.ID = false)
    (hm : isStale t m = true) (hf : fails m.ID = true) :
    (ClearExpiredInflightGen fails s t).2 = some (.engine .ioFailure) ∧
    (ClearExpiredInflightGen fails s t).1.dbh =
      some { h with db := sweepFold t h.db pre } := by
  have hrun : ClearExpiredInflightGen fails s t =
      ({ s with dbh := some { h with db := sweepFold t h.db pre } },
        some (.engine .ioFailure)) := by
    simp only [ClearExpiredInflightGen, hs, hc, Bool.false_eq_true, if_false, hv]
    rw [sweepGo_fail fails t m post hm hf pre h.db hpre]
  rw [hrun]
  exact ⟨rfl, rfl⟩

/-- Witness for C6: three stale inflight records at threshold 100, the engine
failing on id bad; the record before bad is deleted, the sweep aborts with
the error, and the record after bad survives. -/
theorem clearExpired_failFast_witness :
    ((ClearExpiredInflightGen (fun id => id == "bad")
        ⟨"p", ⟨250⟩, some ⟨false, ⟨[], [], [],
          [⟨"g1", KInflight, 0, ""⟩, ⟨"bad", KInflight, 50, ""⟩,
           ⟨"g2", KInflight, 10, ""⟩]⟩⟩, 0⟩ 100).2 = some (.engine .ioFailure) ∧
    (ClearExpiredInflightGen (fun id => id == "bad")
        ⟨"p", ⟨250⟩, some ⟨false, ⟨[], [], [],
          [⟨"g1", KInflight, 0, ""⟩, ⟨"bad", KInflight, 50, ""⟩,
           ⟨"g2", KInflight, 10, ""⟩]⟩⟩, 0⟩ 100).1.dbh =
      some ⟨false, sweepFold 100 ⟨[], [], [],
          [⟨"g1", KInflight, 0, ""⟩, ⟨"bad", KInflight, 50, ""⟩,
           ⟨"g2", KInflight, 10, ""⟩]⟩ [⟨"g1", KInflight, 0, ""⟩]⟩) ∧
    (ClearExpiredInflightGen (fun id => id == "bad")
        ⟨"p", ⟨250⟩, some ⟨false, ⟨[], [], [],
          [⟨"g1", KInflight, 0, ""⟩, ⟨"bad", KInflight, 50, ""⟩,
           ⟨"g2", KInflight, 10, ""⟩]⟩⟩, 0⟩ 100).1.dbh =
      some ⟨false, ⟨[], [], [],
          [⟨"bad", KInflight, 50, ""⟩, ⟨"g2", KInflight, 10, ""⟩]⟩⟩ :=
  ⟨clearExpired_failFast (fun id => id == "bad")
      ⟨"p", ⟨250⟩, some ⟨false, ⟨[], [], [],
        [⟨"g1", KInflight, 0, ""⟩, ⟨"bad", KInflight, 50, ""⟩,
         ⟨"g2", KInflight, 10, ""⟩]⟩⟩, 0⟩
      ⟨false, ⟨[], [], [],
        [⟨"g1", KInflight, 0, ""⟩, ⟨"bad", KInflight, 50, ""⟩,
         ⟨"g2", KInflight, 10, ""⟩]⟩⟩ 100
      [⟨"g1", KInflight, 0, ""⟩] [⟨"g2", KInflight, 10, ""⟩]
      ⟨"bad", KInflight, 50, ""⟩ rfl rfl (by decide) (by decide) (by decide)
      (by decide),
    by decide⟩

end Bolt
